import Mathlib

/-!
Verification development for the MediLink appointment-scheduling backend.

The mounted application (src/main.py) serves the routers under src/app/; the
top-level src/routers/, src/models.py and src/schemas.py are a superseded
revision of the same service and are embedded separately where a claim is
about an operation that only exists there (confirmar_cita).

Conventions of the shallow embedding:
* Timestamps are natural numbers counting seconds since an epoch that falls
  on a Monday at 00:00, so `t / 86400 % 7` is Python's `weekday()` (0 = Monday
  = LUNES) and `t % 86400` is the time of day, mirroring `datetime.time()`.
  Dates (columns of type Date, and the parsed `fecha` query parameter of the
  availability endpoint) are day indices; day `d` starts at second `d * 86400`.
* SQLAlchemy queries are embedded as list operations over an explicit database
  state; `.first()` / the FastAPI lookup helpers become `List.find?` in table
  order, `.filter(...).all()` becomes `List.filter`.
* `raise HTTPException(...)` and pydantic validation failures become
  `Except.error` with a constructor per distinct rejection; an unhandled
  Python exception (an `AttributeError`) is likewise an `Except.error`
  (FastAPI returns a 500 response and `get_db` rolls the session back, so the
  database state is unchanged either way).
* The enum `app.models.enums.EstadoCitaEnum` of the mounted revision has the
  seven members below and, crucially, no member named `CANCELADA`, although
  src/app/routers/citas.py refers to `EstadoCitaEnum.CANCELADA` in several
  endpoints; evaluating that attribute raises `AttributeError`, embedded here
  as the error value `ApiError.atributoCanceladaInexistente`.
-/

deriving instance DecidableEq for Except

namespace MediLink

/-- Estados of `EstadoCitaEnum` in src/app/models/enums.py (the mounted
revision).  Note there is no plain `CANCELADA` member. -/
inductive EstadoCita where
  | pendiente
  | confirmada
  | enCurso
  | completada
  | canceladaPaciente
  | canceladaDoctor
  | noAsistio
deriving DecidableEq, Repr

/-- `TipoUsuarioEnum` of src/app/models/enums.py. -/
inductive TipoUsuario where
  | paciente
  | doctor
  | admin
deriving DecidableEq, Repr

/-- The authenticated user injected by `get_current_user` (only the fields the
cita endpoints read: `id` and `tipo_usuario`). -/
structure UsuarioActual where
  id : Nat
  tipoUsuario : TipoUsuario
deriving DecidableEq, Repr

/-- Row of `pacientes` (src/app/models/paciente.py), restricted to the columns
the cita endpoints read. -/
structure Paciente where
  id : Nat
  usuarioId : Nat
deriving DecidableEq, Repr

/-- Row of `doctores` (src/app/models/doctor.py), restricted to the columns the
cita endpoints read.  `duracion_cita_minutos` is NOT NULL with default 30;
`costo_consulta` is a float in the source, modelled as an uninterpreted
integer since no claim depends on its arithmetic. -/
structure Doctor where
  id : Nat
  usuarioId : Nat
  duracionCitaMinutos : Nat
  costoConsulta : Int
deriving DecidableEq, Repr

/-- Row of `horarios_doctor` (src/app/models/horario_doctor.py).  `dia_semana`
is the Spanish day enum; the router maps Python weekday names bijectively onto
it, so it is modelled as the weekday index 0 = LUNES .. 6 = DOMINGO.
`hora_inicio` / `hora_fin` are times of day in seconds. -/
structure HorarioDoctor where
  id : Nat
  doctorId : Nat
  diaSemana : Nat
  horaInicio : Nat
  horaFin : Nat
  activo : Bool
deriving DecidableEq, Repr

/-- Row of `dias_no_laborales` (src/app/models/dia_no_laboral.py): a calendar
day on which the doctor does not attend.  `fecha` is a day index. -/
structure DiaNoLaboral where
  id : Nat
  doctorId : Nat
  fecha : Nat
deriving DecidableEq, Repr

/-- Row of `citas` (src/app/models/cita.py), restricted to the columns the
endpoints read or write. -/
structure Cita where
  id : Nat
  pacienteId : Nat
  doctorId : Nat
  fechaHora : Nat
  duracionMinutos : Nat
  motivo : String
  sintomas : Option String
  notasPaciente : Option String
  notasDoctor : Option String
  diagnostico : Option String
  tratamiento : Option String
  receta : Option String
  esVideollamada : Bool
  estado : EstadoCita
  costo : Int
  motivoCancelacion : Option String
  canceladoPorUsuarioId : Option Nat
  fechaCancelacion : Option Nat
  fechaCreacion : Nat
  fechaActualizacion : Nat
deriving DecidableEq, Repr

/-- The persistent state the cita/disponibilidad endpoints touch.
`nextCitaId` models the autoincrement primary key of `citas`. -/
structure DBState where
  pacientes : List Paciente
  doctores : List Doctor
  horarios : List HorarioDoctor
  diasNoLaborales : List DiaNoLaboral
  citas : List Cita
  nextCitaId : Nat
deriving DecidableEq, Repr

/-- Python `weekday()` of a timestamp (0 = Monday, matching LUNES under the
router's day-name mapping). -/
def diaSemanaDe (t : Nat) : Nat := t / 86400 % 7

/-- `datetime.time()` of a timestamp, as seconds of day. -/
def horaDelDia (t : Nat) : Nat := t % 86400

/-- End of a stored appointment:
`cita.fecha_hora + timedelta(minutes=cita.duracion_minutos)`. -/
def finCita (c : Cita) : Nat := c.fechaHora + c.duracionMinutos * 60

/-- An appointment that occupies calendar time:
`estado in [EstadoCitaEnum.PENDIENTE, EstadoCitaEnum.CONFIRMADA]`. -/
def citaActiva (c : Cita) : Bool :=
  c.estado == .pendiente || c.estado == .confirmada

/-- The distinct rejection outcomes of the embedded endpoints (HTTPException
details, pydantic validation failures and unhandled exceptions). -/
inductive ApiError where
  | fechaNoFutura
  | antelacionMinima
  | antelacionMaxima
  | motivoInvalido
  | soloPacientes
  | soloDoctores
  | perfilPacienteNoEncontrado
  | doctorNoEncontrado
  | citaNoEncontrada
  | doctorNoAtiendeEseDia
  | horaFueraDeHorario
  | citaSuperpuesta
  | sinPermiso
  | atributoCanceladaInexistente
  | atributoDeNone
  | fechaPasadaConsulta
  | soloCitasPendientes
deriving DecidableEq, Repr

section Disponibilidad

/-! Embedding of src/app/routers/disponibilidad.py (module constants and the
slot generator; the endpoint follows in the next section). -/

def HORA_INICIO : Nat := 8

def HORA_FIN : Nat := 18

def DURACION_CITA : Nat := 30

def DIAS_LABORALES : List Nat := [0, 1, 2, 3, 4]

/-- The `while hora_actual < HORA_FIN` loop of `generar_horarios_del_dia`.
`fecha` is the day-start timestamp (every caller passes a midnight datetime),
and `fecha.replace(hour=h, minute=m, ...)` is `fecha + h * 3600 + m * 60`. -/
def generarBucle (fecha : Nat) (horaActual minutoActual : Nat) : List Nat :=
  if horaActual < HORA_FIN then
    let horario := fecha + horaActual * 3600 + minutoActual * 60
    if minutoActual + DURACION_CITA ≥ 60 then
      horario :: generarBucle fecha (horaActual + 1) 0
    else
      horario :: generarBucle fecha horaActual (minutoActual + DURACION_CITA)
  else
    []
termination_by (HORA_FIN - horaActual, 60 - minutoActual)
decreasing_by
  · simp only [HORA_FIN] at *; omega
  · simp only [HORA_FIN, DURACION_CITA] at *; omega

/-- `generar_horarios_del_dia` (src/app/routers/disponibilidad.py lines
30-47): all candidate start times of a day, from the fixed window constants. -/
def generarHorariosDelDia (fecha : Nat) : List Nat :=
  generarBucle fecha HORA_INICIO 0

/-- One unfolding of the loop at the start of an hour. -/
theorem generarBucle_paso_cero (fecha h : Nat) (hlt : h < 18) :
    generarBucle fecha h 0 = (fecha + h * 3600) :: generarBucle fecha h 30 := by
  rw [generarBucle]
  norm_num [HORA_FIN, DURACION_CITA, hlt]

/-- One unfolding of the loop at the half hour. -/
theorem generarBucle_paso_media (fecha h : Nat) (hlt : h < 18) :
    generarBucle fecha h 30 =
      (fecha + h * 3600 + 1800) :: generarBucle fecha (h + 1) 0 := by
  rw [generarBucle]
  norm_num [HORA_FIN, DURACION_CITA, hlt]

/-- The loop emits two slots per hour inside the window. -/
theorem generarBucle_paso_hora (fecha h : Nat) (hlt : h < 18) :
    generarBucle fecha h 0 =
      (fecha + h * 3600) :: (fecha + h * 3600 + 1800) ::
        generarBucle fecha (h + 1) 0 := by
  rw [generarBucle_paso_cero fecha h hlt, generarBucle_paso_media fecha h hlt]

/-- The loop stops at `HORA_FIN`. -/
theorem generarBucle_fin (fecha : Nat) : generarBucle fecha 18 0 = [] := by
  rw [generarBucle]; norm_num [HORA_FIN]

/-- Closed form of the slot loop: twenty slots every 30 minutes from 08:00. -/
theorem generarHorariosDelDia_eq (fecha : Nat) :
    generarHorariosDelDia fecha =
      [fecha + 28800, fecha + 30600, fecha + 32400, fecha + 34200,
       fecha + 36000, fecha + 37800, fecha + 39600, fecha + 41400,
       fecha + 43200, fecha + 45000, fecha + 46800, fecha + 48600,
       fecha + 50400, fecha + 52200, fecha + 54000, fecha + 55800,
       fecha + 57600, fecha + 59400, fecha + 61200, fecha + 63000] := by
  show generarBucle fecha 8 0 = _
  rw [generarBucle_paso_hora fecha 8 (by norm_num)]
  rw [generarBucle_paso_hora fecha 9 (by norm_num)]
  rw [generarBucle_paso_hora fecha 10 (by norm_num)]
  rw [generarBucle_paso_hora fecha 11 (by norm_num)]
  rw [generarBucle_paso_hora fecha 12 (by norm_num)]
  rw [generarBucle_paso_hora fecha 13 (by norm_num)]
  rw [generarBucle_paso_hora fecha 14 (by norm_num)]
  rw [generarBucle_paso_hora fecha 15 (by norm_num)]
  rw [generarBucle_paso_hora fecha 16 (by norm_num)]
  rw [generarBucle_paso_hora fecha 17 (by norm_num)]
  rw [generarBucle_fin fecha]

/-- `obtener_disponibilidad_doctor` (src/app/routers/disponibilidad.py lines
50-132).  `fecha` is the parsed `YYYY-MM-DD` query parameter as a day index
(malformed date strings, rejected by `strptime`, are outside the model).
The endpoint checks the doctor, rejects past dates, returns an empty list on
weekends, generates the fixed 08:00-18:00 slots, on the current date drops
slots not strictly after `now + 1 hour`, and removes slots whose exact start
time equals an active appointment of the day.  Note that it reads neither
`horarios_doctor` nor `dias_no_laborales`. -/
def obtenerDisponibilidadDoctor (s : DBState) (doctorId : Nat) (fecha : Nat)
    (now : Nat) : Except ApiError (List Nat) :=
  match s.doctores.find? (fun d => d.id == doctorId) with
  | none => .error .doctorNoEncontrado
  | some _ =>
    let fechaObj := fecha * 86400
    let fechaActual := now / 86400 * 86400
    if fechaObj < fechaActual then
      .error .fechaPasadaConsulta
    else if !(DIAS_LABORALES.contains (fecha % 7)) then
      .ok []
    else
      let todosHorarios := generarHorariosDelDia fechaObj
      let horaMinima := now + 3600
      let todosHorarios :=
        if fecha == now / 86400 then
          todosHorarios.filter (fun h => decide (horaMinima < h))
        else
          todosHorarios
      let inicioDia := fechaObj
      let finDia := fechaObj + 86399
      let citasOcupadas := s.citas.filter (fun c =>
        c.doctorId == doctorId && decide (inicioDia ≤ c.fechaHora) &&
          decide (c.fechaHora ≤ finDia) && citaActiva c)
      let horariosOcupados := citasOcupadas.map (fun c => c.fechaHora)
      .ok (todosHorarios.filter (fun h => !(horariosOcupados.contains h)))

end Disponibilidad

section Citas

/-! Embedding of src/app/routers/citas.py and src/app/schemas/cita.py (the
mounted revision). -/

/-- Request body `CitaCreate` (src/app/schemas/cita.py lines 10-63).  It has
no duration field: the patient cannot supply one. -/
structure CitaCreate where
  doctorId : Nat
  fechaHora : Nat
  motivo : String
  sintomas : Option String
  notasPaciente : Option String
  esVideollamada : Bool
deriving DecidableEq, Repr

/-- Pydantic validation of `CitaCreate`: `motivo` length bounds and the two
`fecha_hora` validators `validar_fecha_futura` (strictly in the future) and
`validar_antelacion_minima` (more than 24 hours ahead, at most 90 days
ahead), in declaration order. -/
def validarCitaCreate (now : Nat) (req : CitaCreate) : Except ApiError Unit :=
  if req.fechaHora ≤ now then .error .fechaNoFutura
  else if req.fechaHora ≤ now + 24 * 3600 then .error .antelacionMinima
  else if now + 90 * 86400 < req.fechaHora then .error .antelacionMaxima
  else if req.motivo.length < 10 || 500 < req.motivo.length then
    .error .motivoInvalido
  else .ok ()

/-- The `excluir_cita_id` filter clause of `validar_disponibilidad_doctor`
(`Cita.id != excluir_cita_id`, applied only when an id to exclude is given). -/
def pasaExclusion (excluirCitaId : Option Nat) (c : Cita) : Bool :=
  match excluirCitaId with
  | some eid => c.id != eid
  | none => true

/-- `validar_disponibilidad_doctor` (src/app/routers/citas.py lines 37-120):
rejects past datetimes, missing doctors, datetimes outside the first active
weekly schedule row for that weekday, and candidate intervals that overlap an
active appointment of the doctor under the half-open test of line 114,
`fecha_hora < fecha_fin_existente and fecha_fin > cita_existente.fecha_hora`. -/
def validarDisponibilidadDoctor (s : DBState) (doctorId : Nat) (fechaHora : Nat)
    (duracionMinutos : Nat) (excluirCitaId : Option Nat) (now : Nat) :
    Except ApiError Unit :=
  if fechaHora ≤ now then .error .fechaNoFutura
  else
    match s.doctores.find? (fun d => d.id == doctorId) with
    | none => .error .doctorNoEncontrado
    | some _ =>
      match s.horarios.find? (fun h =>
          h.doctorId == doctorId && h.diaSemana == diaSemanaDe fechaHora &&
            h.activo) with
      | none => .error .doctorNoAtiendeEseDia
      | some horario =>
        if !(decide (horario.horaInicio ≤ horaDelDia fechaHora) &&
              decide (horaDelDia fechaHora < horario.horaFin)) then
          .error .horaFueraDeHorario
        else
          let fechaFin := fechaHora + duracionMinutos * 60
          let citasExistentes := s.citas.filter (fun c =>
            c.doctorId == doctorId && citaActiva c &&
              pasaExclusion excluirCitaId c)
          match citasExistentes.find? (fun c =>
              decide (fechaHora < finCita c) && decide (fechaFin > c.fechaHora)) with
          | some _ => .error .citaSuperpuesta
          | none => .ok ()

/-- `crear_cita` (src/app/routers/citas.py lines 159-254): pydantic
validation, patient-only check, profile and doctor lookups, the duration
`doctor.duracion_cita_minutos or 30` (Python `or`: 30 exactly when the stored
value is falsy, that is 0), availability validation, then the insert with
state PENDIENTE. -/
def crearCita (s : DBState) (now : Nat) (currentUser : UsuarioActual)
    (req : CitaCreate) : Except ApiError (DBState × Cita) :=
  match validarCitaCreate now req with
  | .error e => .error e
  | .ok () =>
    if currentUser.tipoUsuario != .paciente then .error .soloPacientes
    else
      match s.pacientes.find? (fun p => p.usuarioId == currentUser.id) with
      | none => .error .perfilPacienteNoEncontrado
      | some paciente =>
        match s.doctores.find? (fun d => d.id == req.doctorId) with
        | none => .error .doctorNoEncontrado
        | some doctor =>
          let duracion :=
            if doctor.duracionCitaMinutos == 0 then 30
            else doctor.duracionCitaMinutos
          match validarDisponibilidadDoctor s req.doctorId req.fechaHora
              duracion none now with
          | .error e => .error e
          | .ok () =>
            let nuevaCita : Cita :=
              { id := s.nextCitaId
                pacienteId := paciente.id
                doctorId := req.doctorId
                fechaHora := req.fechaHora
                duracionMinutos := duracion
                motivo := req.motivo
                sintomas := req.sintomas
                notasPaciente := req.notasPaciente
                notasDoctor := none
                diagnostico := none
                tratamiento := none
                receta := none
                esVideollamada := req.esVideollamada
                estado := .pendiente
                costo := doctor.costoConsulta
                motivoCancelacion := none
                canceladoPorUsuarioId := none
                fechaCancelacion := none
                fechaCreacion := now
                fechaActualizacion := now }
            .ok ({ s with
                    citas := s.citas ++ [nuevaCita]
                    nextCitaId := s.nextCitaId + 1 },
                 nuevaCita)

/-- Request body `CitaUpdate` (src/app/schemas/cita.py lines 66-87). -/
structure CitaUpdate where
  fechaHora : Option Nat
  motivo : Option String
  sintomas : Option String
  notasPaciente : Option String
  esVideollamada : Option Bool
deriving DecidableEq, Repr

/-- Request body `CitaCompletarConsulta` (src/app/schemas/cita.py lines
106-122). -/
structure CitaCompletarConsulta where
  notasDoctor : String
  diagnostico : String
  tratamiento : Option String
  receta : Option String
deriving DecidableEq, Repr

/-- `actualizar_cita` (src/app/routers/citas.py lines 593-682).  After the
schema validators, the patient-only check, the profile lookup (a user without
a patient profile hits `paciente.id` on `None`: `AttributeError`) and the
appointment lookup, line 619 evaluates `EstadoCitaEnum.CANCELADA`, a member
that does not exist in the mounted revision's enum; the endpoint therefore
always raises `AttributeError` before mutating anything. -/
def actualizarCita (s : DBState) (now : Nat) (currentUser : UsuarioActual)
    (citaId : Nat) (req : CitaUpdate) : Except ApiError (DBState × Cita) :=
  if (match req.fechaHora with
      | some f => decide (f ≤ now)
      | none => false) then .error .fechaNoFutura
  else if (match req.motivo with
      | some m => decide (m.length < 10) || decide (500 < m.length)
      | none => false) then .error .motivoInvalido
  else if currentUser.tipoUsuario != .paciente then .error .soloPacientes
  else
    match s.pacientes.find? (fun p => p.usuarioId == currentUser.id) with
    | none => .error .atributoDeNone
    | some paciente =>
      match s.citas.find? (fun c =>
          c.id == citaId && c.pacienteId == paciente.id) with
      | none => .error .citaNoEncontrada
      | some _ => .error .atributoCanceladaInexistente

/-- `cancelar_cita` (src/app/routers/citas.py lines 685-728).  After the
schema validator for `motivo_cancelacion`, the appointment lookup and the
ownership checks, line 712 evaluates `EstadoCitaEnum.CANCELADA` and raises
`AttributeError`; the endpoint never reaches its intended 400 rejection nor
the mutation that would mark the appointment cancelled. -/
def cancelarCita (s : DBState) (now : Nat) (currentUser : UsuarioActual)
    (citaId : Nat) (motivoCancelacion : String) :
    Except ApiError (DBState × Unit) :=
  if motivoCancelacion.length < 10 || 500 < motivoCancelacion.length then
    .error .motivoInvalido
  else
    match s.citas.find? (fun c => c.id == citaId) with
    | none => .error .citaNoEncontrada
    | some cita =>
      if currentUser.tipoUsuario == .paciente then
        match s.pacientes.find? (fun p => p.usuarioId == currentUser.id) with
        | none => .error .atributoDeNone
        | some paciente =>
          if cita.pacienteId != paciente.id then .error .sinPermiso
          else .error .atributoCanceladaInexistente
      else if currentUser.tipoUsuario == .doctor then
        match s.doctores.find? (fun d => d.usuarioId == currentUser.id) with
        | none => .error .atributoDeNone
        | some doctor =>
          if cita.doctorId != doctor.id then .error .sinPermiso
          else .error .atributoCanceladaInexistente
      else .error .atributoCanceladaInexistente

/-- `completar_cita` (src/app/routers/citas.py lines 731-809).  After the
schema validators, the doctor-only check and the lookups, line 754 evaluates
`EstadoCitaEnum.CANCELADA` and raises `AttributeError`; the endpoint never
completes an appointment (and, even apart from the missing member, its guard
would only have rejected cancelled appointments, not already-completed
ones). -/
def completarCita (s : DBState) (now : Nat) (currentUser : UsuarioActual)
    (citaId : Nat) (datos : CitaCompletarConsulta) :
    Except ApiError (DBState × Cita) :=
  if datos.notasDoctor.length < 10 || datos.diagnostico.length < 10 then
    .error .motivoInvalido
  else if currentUser.tipoUsuario != .doctor then .error .soloDoctores
  else
    match s.doctores.find? (fun d => d.usuarioId == currentUser.id) with
    | none => .error .atributoDeNone
    | some doctor =>
      match s.citas.find? (fun c =>
          c.id == citaId && c.doctorId == doctor.id) with
      | none => .error .citaNoEncontrada
      | some _ => .error .atributoCanceladaInexistente

/-- `cambiar_estado_cita` (src/app/routers/citas.py lines 812-857).  After the
doctor-only check and the lookups, line 836 evaluates
`EstadoCitaEnum.CANCELADA` and raises `AttributeError`; the endpoint never
changes any state. -/
def cambiarEstadoCita (s : DBState) (now : Nat) (currentUser : UsuarioActual)
    (citaId : Nat) (estado : EstadoCita) : Except ApiError (DBState × Unit) :=
  if currentUser.tipoUsuario != .doctor then .error .soloDoctores
  else
    match s.doctores.find? (fun d => d.usuarioId == currentUser.id) with
    | none => .error .atributoDeNone
    | some doctor =>
      match s.citas.find? (fun c =>
          c.id == citaId && c.doctorId == doctor.id) with
      | none => .error .citaNoEncontrada
      | some _ => .error .atributoCanceladaInexistente

end Citas

section Operaciones

/-- One request against the appointment endpoints of the mounted revision,
with the wall-clock time at which it is processed. -/
inductive Op where
  | crear (now : Nat) (currentUser : UsuarioActual) (req : CitaCreate)
  | actualizar (now : Nat) (currentUser : UsuarioActual) (citaId : Nat)
      (req : CitaUpdate)
  | cancelar (now : Nat) (currentUser : UsuarioActual) (citaId : Nat)
      (motivo : String)
  | completar (now : Nat) (currentUser : UsuarioActual) (citaId : Nat)
      (datos : CitaCompletarConsulta)
  | cambiarEstado (now : Nat) (currentUser : UsuarioActual) (citaId : Nat)
      (estado : EstadoCita)
deriving DecidableEq, Repr

/-- The database state after one request: a rejected request leaves the state
unchanged (`get_db` rolls back on any exception, and no endpoint commits
before its checks). -/
def step (s : DBState) : Op → DBState
  | .crear now cu req =>
      match crearCita s now cu req with
      | .ok (s2, _) => s2
      | .error _ => s
  | .actualizar now cu citaId req =>
      match actualizarCita s now cu citaId req with
      | .ok (s2, _) => s2
      | .error _ => s
  | .cancelar now cu citaId motivo =>
      match cancelarCita s now cu citaId motivo with
      | .ok (s2, _) => s2
      | .error _ => s
  | .completar now cu citaId datos =>
      match completarCita s now cu citaId datos with
      | .ok (s2, _) => s2
      | .error _ => s
  | .cambiarEstado now cu citaId estado =>
      match cambiarEstadoCita s now cu citaId estado with
      | .ok (s2, _) => s2
      | .error _ => s

/-- The database state after a sequence of requests. -/
def runOps (s : DBState) : List Op → DBState
  | [] => s
  | op :: ops => runOps (step s op) ops

/-- Two stored appointments are compatible when they do not both occupy the
same doctor's time: not both active for one doctor with overlapping half-open
intervals. -/
def compatibles (c1 c2 : Cita) : Bool :=
  !(citaActiva c1 && citaActiva c2 && c1.doctorId == c2.doctorId &&
    decide (c1.fechaHora < finCita c2) && decide (c2.fechaHora < finCita c1))

/-- The no-overlap invariant over the `citas` table: every pair of rows is
compatible. -/
def sinSolapamientos : List Cita → Bool
  | [] => true
  | c :: rest => rest.all (fun e => compatibles c e) && sinSolapamientos rest

end Operaciones

section RevisionAnterior

/-! Embedding of the superseded revision (src/models.py, src/routers/citas.py)
where a claim names an operation that only exists there. -/

/-- `EstadoCitaEnum` of src/models.py: the four-state enum of the superseded
revision, which does have a `CANCELADA` member. -/
inductive EstadoCitaOld where
  | pendiente
  | confirmada
  | cancelada
  | completada
deriving DecidableEq, Repr

/-- Row of `citas` in the superseded revision (src/models.py lines 109-128);
it has no duration column. -/
structure CitaOld where
  id : Nat
  pacienteId : Nat
  doctorId : Nat
  fechaHora : Nat
  motivo : String
  notas : Option String
  diagnostico : Option String
  receta : Option String
  estado : EstadoCitaOld
  fechaCreacion : Nat
  fechaActualizacion : Nat
deriving DecidableEq, Repr

/-- `confirmar_cita` (src/routers/citas.py lines 224-245): confirm a pending
appointment; any appointment found in another state is rejected with the 400
detail about pending appointments only, and nothing is written. -/
def confirmarCita (citas : List CitaOld) (citaId : Nat) (now : Nat) :
    Except ApiError (List CitaOld × CitaOld) :=
  match citas.find? (fun c => c.id == citaId) with
  | none => .error .citaNoEncontrada
  | some cita =>
    if cita.estado != .pendiente then .error .soloCitasPendientes
    else
      let confirmada :=
        { cita with estado := .confirmada, fechaActualizacion := now }
      .ok (citas.map (fun c => if c.id == citaId then confirmada else c),
           confirmada)

end RevisionAnterior

section Lemas

/-- Unfolding of `compatibles` into a proposition. -/
theorem compatibles_iff (c1 c2 : Cita) :
    compatibles c1 c2 = true ↔
      ¬(citaActiva c1 = true ∧ citaActiva c2 = true ∧
        c1.doctorId = c2.doctorId ∧
        c1.fechaHora < finCita c2 ∧ c2.fechaHora < finCita c1) := by
  constructor
  · intro h hc
    obtain ⟨h1, h2, h3, h4, h5⟩ := hc
    simp [compatibles, h1, h2, h3, h4, h5] at h
  · intro h
    by_contra hb
    simp only [Bool.not_eq_true] at hb
    simp [compatibles] at hb
    exact h ⟨hb.1.1.1.1, hb.1.1.1.2, hb.1.1.2, hb.1.2, hb.2⟩

/-- Compatibility of appointments is symmetric. -/
theorem compatibles_comm (c1 c2 : Cita) :
    compatibles c1 c2 = true ↔ compatibles c2 c1 = true := by
  rw [compatibles_iff, compatibles_iff]
  constructor <;>
    exact fun h hc =>
      h ⟨hc.2.1, hc.1, hc.2.2.1.symm, hc.2.2.2.2, hc.2.2.2.1⟩

/-- Characterisation of the pairwise invariant on a snoc. -/
theorem sinSolapamientos_append (l : List Cita) (a : Cita) :
    sinSolapamientos (l ++ [a]) = true ↔
      sinSolapamientos l = true ∧ ∀ e ∈ l, compatibles e a = true := by
  induction l with
  | nil => simp [sinSolapamientos]
  | cons c rest ih =>
    have hdef : sinSolapamientos (c :: (rest ++ [a])) =
        ((rest ++ [a]).all (fun e => compatibles c e) &&
          sinSolapamientos (rest ++ [a])) := rfl
    rw [List.cons_append, hdef, Bool.and_eq_true, ih]
    have hdef2 : sinSolapamientos (c :: rest) =
        (rest.all (fun e => compatibles c e) && sinSolapamientos rest) := rfl
    rw [hdef2, Bool.and_eq_true]
    simp only [List.all_eq_true, List.mem_append, List.mem_cons,
      List.not_mem_nil, or_false]
    constructor
    · rintro ⟨h2, h3, h4⟩
      refine ⟨⟨fun e he => h2 e (Or.inl he), h3⟩, ?_⟩
      rintro e (rfl | he)
      · exact h2 a (Or.inr rfl)
      · exact h4 e he
    · rintro ⟨⟨hcc, hrest⟩, hall⟩
      refine ⟨?_, hrest, fun e he => hall e (Or.inr he)⟩
      rintro x (hx | rfl)
      · exact hcc x hx
      · exact hall c (Or.inl rfl)

/-- A successful `validar_disponibilidad_doctor` call (without exclusion)
means no active appointment of the doctor conflicts with the candidate
interval. -/
theorem validar_ok_sin_conflicto (s : DBState) (did fh dur now : Nat)
    (h : validarDisponibilidadDoctor s did fh dur none now = .ok ()) :
    ∀ e ∈ s.citas, e.doctorId = did → citaActiva e = true →
      ¬(fh < finCita e ∧ e.fechaHora < fh + dur * 60) := by
  intro e he hdoc hact hconf
  simp only [validarDisponibilidadDoctor] at h
  split at h
  · simp at h
  · split at h
    · simp at h
    · split at h
      · simp at h
      · split at h
        · simp at h
        · split at h
          · simp at h
          next hnone =>
            have hmem : e ∈ s.citas.filter (fun c =>
                c.doctorId == did && citaActiva c && pasaExclusion none c) :=
              List.mem_filter.mpr ⟨he, by simp [hdoc, hact, pasaExclusion]⟩
            have h2 := List.find?_eq_none.mp hnone e hmem
            simp only [Bool.and_eq_true, decide_eq_true_eq, gt_iff_lt,
              not_and] at h2
            exact h2 hconf.1 hconf.2

/-- A successful `crear_cita` call appends one appointment that is compatible
with every row already stored. -/
theorem crearCita_ok_citas (s : DBState) (now : Nat) (cu : UsuarioActual)
    (req : CitaCreate) (s2 : DBState) (c : Cita)
    (h : crearCita s now cu req = .ok (s2, c)) :
    s2.citas = s.citas ++ [c] ∧ ∀ e ∈ s.citas, compatibles e c = true := by
  simp only [crearCita] at h
  split at h
  · simp at h
  · split at h
    · simp at h
    · split at h
      · simp at h
      · split at h
        · simp at h
        · split at h
          · simp at h
          next hval =>
            rw [Except.ok.injEq, Prod.mk.injEq] at h
            obtain ⟨hs2, hc⟩ := h
            have hnc := validar_ok_sin_conflicto _ _ _ _ _ hval
            constructor
            · rw [← hs2, ← hc]
            · intro e he
              rw [compatibles_comm, compatibles_iff, ← hc]
              rintro ⟨-, hact, hdoc2, hov1, hov2⟩
              exact hnc e he (by simpa using hdoc2.symm) hact
                ⟨by simpa [finCita] using hov1,
                 by simpa [finCita] using hov2⟩

/-- `actualizar_cita` never succeeds in the mounted revision: every run ends
in a rejection or in the `AttributeError` of line 619. -/
theorem actualizarCita_siempre_error (s : DBState) (now : Nat)
    (cu : UsuarioActual) (citaId : Nat) (req : CitaUpdate)
    (r : DBState × Cita) : actualizarCita s now cu citaId req ≠ .ok r := by
  intro h
  simp only [actualizarCita] at h
  repeat' split at h
  all_goals simp at h

/-- `cancelar_cita` never succeeds in the mounted revision. -/
theorem cancelarCita_siempre_error (s : DBState) (now : Nat)
    (cu : UsuarioActual) (citaId : Nat) (motivo : String)
    (r : DBState × Unit) : cancelarCita s now cu citaId motivo ≠ .ok r := by
  intro h
  simp only [cancelarCita] at h
  repeat' split at h
  all_goals simp at h

/-- `completar_cita` never succeeds in the mounted revision. -/
theorem completarCita_siempre_error (s : DBState) (now : Nat)
    (cu : UsuarioActual) (citaId : Nat) (datos : CitaCompletarConsulta)
    (r : DBState × Cita) : completarCita s now cu citaId datos ≠ .ok r := by
  intro h
  simp only [completarCita] at h
  repeat' split at h
  all_goals simp at h

/-- `cambiar_estado_cita` never succeeds in the mounted revision. -/
theorem cambiarEstadoCita_siempre_error (s : DBState) (now : Nat)
    (cu : UsuarioActual) (citaId : Nat) (estado : EstadoCita)
    (r : DBState × Unit) : cambiarEstadoCita s now cu citaId estado ≠ .ok r := by
  intro h
  simp only [cambiarEstadoCita] at h
  repeat' split at h
  all_goals simp at h

/-- Every single request preserves the pairwise no-overlap invariant. -/
theorem step_preserva (s : DBState) (op : Op)
    (h : sinSolapamientos s.citas = true) :
    sinSolapamientos (step s op).citas = true := by
  cases op with
  | crear now cu req =>
    simp only [step]
    split
    next s2 c heq =>
      obtain ⟨hcitas, hcomp⟩ := crearCita_ok_citas _ _ _ _ _ _ heq
      rw [hcitas, sinSolapamientos_append]
      exact ⟨h, hcomp⟩
    · exact h
  | actualizar now cu citaId req =>
    simp only [step]
    split
    next s2 c heq => exact absurd heq (actualizarCita_siempre_error _ _ _ _ _ _)
    · exact h
  | cancelar now cu citaId motivo =>
    simp only [step]
    split
    next s2 u heq => exact absurd heq (cancelarCita_siempre_error _ _ _ _ _ _)
    · exact h
  | completar now cu citaId datos =>
    simp only [step]
    split
    next s2 c heq => exact absurd heq (completarCita_siempre_error _ _ _ _ _ _)
    · exact h
  | cambiarEstado now cu citaId estado =>
    simp only [step]
    split
    next s2 u heq =>
      exact absurd heq (cambiarEstadoCita_siempre_error _ _ _ _ _ _)
    · exact h

end Lemas

section Reclamos

/-- C1.  For every doctor, after any sequence of booking (crear_cita), update
(actualizar_cita), cancellation, completion and state-change
(cambiar_estado_cita) operations, no two of that doctor's appointments with
state in PENDIENTE/CONFIRMADA have overlapping half-open intervals.  In the
mounted revision this holds because `crear_cita` is the only endpoint that
ever commits — it validates the candidate interval against every active
appointment of the doctor — while the other four endpoints reject or raise
(on the missing enum member `EstadoCitaEnum.CANCELADA`) before mutating
anything. -/
theorem sinSolape_tras_operaciones (s : DBState) (ops : List Op)
    (h : sinSolapamientos s.citas = true) :
    sinSolapamientos (runOps s ops).citas = true := by
  induction ops generalizing s with
  | nil => exact h
  | cons op rest ih => exact ih (step s op) (step_preserva s op h)

def doctorInicial : Doctor := ⟨1, 10, 45, 500⟩

def horarioInicial : HorarioDoctor := ⟨1, 1, 0, 32400, 64800, true⟩

def pacienteInicial : Paciente := ⟨1, 20⟩

/-- Initial state for the C1 witness: one doctor attending Mondays
09:00-18:00, one patient, no appointments. -/
def estadoInicial : DBState :=
  ⟨[pacienteInicial], [doctorInicial], [horarioInicial], [], [], 1⟩

/-- Operations for the C1 witness: a successful booking on a Monday at 10:00,
a second booking attempt overlapping it at 10:15 (rejected), and a
cancellation attempt (which hits the missing enum member). -/
def opsPrueba : List Op :=
  [.crear 0 ⟨20, .paciente⟩ ⟨1, 640800, "Consulta general de cabecera", none,
      none, false⟩,
   .crear 0 ⟨20, .paciente⟩ ⟨1, 641700, "Consulta general de cabecera", none,
      none, false⟩,
   .cancelar 0 ⟨20, .paciente⟩ 1 "Ya no es necesaria la consulta"]

/-- Witness for C1 at a concrete initial state and operation sequence. -/
theorem sinSolape_tras_operaciones_witness :
    sinSolapamientos estadoInicial.citas = true ∧
      sinSolapamientos (runOps estadoInicial opsPrueba).citas = true :=
  ⟨by decide, sinSolape_tras_operaciones estadoInicial opsPrueba (by decide)⟩

/-- Membership in the active-appointment filter of
`validar_disponibilidad_doctor`. -/
theorem mem_filtroActivas (s : DBState) (did : Nat) (exc : Option Nat)
    (c : Cita) :
    c ∈ s.citas.filter (fun c =>
        c.doctorId == did && citaActiva c && pasaExclusion exc c) ↔
      c ∈ s.citas ∧ c.doctorId = did ∧ citaActiva c = true ∧
        pasaExclusion exc c = true := by
  simp [List.mem_filter, and_assoc]

/-- C2.  Under the preconditions that make the earlier checks of
`validar_disponibilidad_doctor` pass (future datetime, doctor found, an
active schedule row covering the time of day), the validation rejects with
the overlap error precisely when some active appointment of the doctor
satisfies `a0 < b1 AND b0 < a1` against the candidate `[a0, a1)` with
`a1 = a0 + dur * 60`, and accepts precisely when none does.  Touching
intervals (`a1 = b0` or `b1 = a0`) therefore never conflict, while any
one-second overlap does. -/
theorem conflicto_reportado_iff (s : DBState) (did fh dur now : Nat)
    (h0 : HorarioDoctor)
    (hfut : now < fh)
    (hdoc : (s.doctores.find? (fun d => d.id == did)).isSome = true)
    (hhor : s.horarios.find? (fun h =>
        h.doctorId == did && h.diaSemana == diaSemanaDe fh && h.activo) =
      some h0)
    (hini : h0.horaInicio ≤ horaDelDia fh)
    (hfin : horaDelDia fh < h0.horaFin) :
    (validarDisponibilidadDoctor s did fh dur none now =
        .error .citaSuperpuesta ↔
      ∃ c ∈ s.citas, citaActiva c = true ∧ c.doctorId = did ∧
        fh < finCita c ∧ c.fechaHora < fh + dur * 60) ∧
    (validarDisponibilidadDoctor s did fh dur none now = .ok () ↔
      ∀ c ∈ s.citas, citaActiva c = true → c.doctorId = did →
        ¬(fh < finCita c ∧ c.fechaHora < fh + dur * 60)) := by
  obtain ⟨d, hd⟩ := Option.isSome_iff_exists.mp hdoc
  simp only [validarDisponibilidadDoctor, hd, hhor,
    if_neg (show ¬ fh ≤ now from by omega),
    if_neg (show ¬ ((!(decide (h0.horaInicio ≤ horaDelDia fh) &&
      decide (horaDelDia fh < h0.horaFin))) = true) from by simp [hini, hfin])]
  cases hfind : (s.citas.filter (fun c =>
      c.doctorId == did && citaActiva c && pasaExclusion none c)).find?
      (fun c => decide (fh < finCita c) && decide (fh + dur * 60 > c.fechaHora))
    with
  | some c =>
    have hmem := List.mem_of_find?_eq_some hfind
    rw [mem_filtroActivas] at hmem
    have hpred := List.find?_some hfind
    simp only [Bool.and_eq_true, decide_eq_true_eq, gt_iff_lt] at hpred
    constructor
    · simp only [iff_true_intro rfl, true_iff]
      exact ⟨c, hmem.1, hmem.2.2.1, hmem.2.1, hpred.1, hpred.2⟩
    · constructor
      · intro hcontra; simp at hcontra
      · intro hall
        exact absurd ⟨hpred.1, hpred.2⟩
          (hall c hmem.1 hmem.2.2.1 hmem.2.1)
  | none =>
    have hnone := List.find?_eq_none.mp hfind
    constructor
    · constructor
      · intro hcontra; simp at hcontra
      · rintro ⟨c, hc, hact, hdid, hov1, hov2⟩
        have := hnone c ((mem_filtroActivas s did none c).mpr
          ⟨hc, hdid, hact, by simp [pasaExclusion]⟩)
        simp only [Bool.and_eq_true, decide_eq_true_eq, gt_iff_lt,
          not_and] at this
        exact absurd hov2 (this hov1)
    · simp only [iff_true_intro rfl, true_iff]
      intro c hc hact hdid hov
      have := hnone c ((mem_filtroActivas s did none c).mpr
        ⟨hc, hdid, hact, by simp [pasaExclusion]⟩)
      simp only [Bool.and_eq_true, decide_eq_true_eq, gt_iff_lt,
        not_and] at this
      exact absurd hov.2 (this hov.1)

def citaConfirmada : Cita :=
  ⟨1, 1, 1, 640800, 30, "Consulta general de control", none, none, none,
   none, none, none, false, .confirmada, 500, none, none, none, 0, 0⟩

/-- State for the C2 witness: the doctor of `estadoInicial` with one
CONFIRMADA appointment on Monday 10:00-10:30 (timestamps 640800-642600). -/
def estadoConCita : DBState :=
  ⟨[pacienteInicial], [doctorInicial], [horarioInicial], [],
   [citaConfirmada], 2⟩

/-- Witness for C2: against the stored 10:00-10:30 appointment, a candidate
starting exactly at its end (10:30, back-to-back) is accepted, and a
candidate starting one second earlier (10:29:59, a one-second overlap) is
rejected with the overlap error. -/
theorem conflicto_reportado_iff_witness :
    validarDisponibilidadDoctor estadoConCita 1 642600 30 none 604800 =
        .ok () ∧
      validarDisponibilidadDoctor estadoConCita 1 642599 30 none 604800 =
        .error .citaSuperpuesta := by
  constructor
  · exact (conflicto_reportado_iff estadoConCita 1 642600 30 604800
      horarioInicial (by decide) (by decide) (by decide) (by decide)
      (by decide)).2.mpr (by decide)
  · exact (conflicto_reportado_iff estadoConCita 1 642599 30 604800
      horarioInicial (by decide) (by decide) (by decide) (by decide)
      (by decide)).1.mpr (by decide)

def diaNoLaboralLunes : DiaNoLaboral := ⟨1, 1, 7⟩

/-- State for C3: the doctor of `estadoInicial` with a `DiaNoLaboral` row for
Monday of day index 7, and no appointments. -/
def estadoConExcepcion : DBState :=
  ⟨[pacienteInicial], [doctorInicial], [horarioInicial], [diaNoLaboralLunes],
   [], 1⟩

/-- C3 counterexample.  Queried for the very date of the doctor's
`DiaNoLaboral` (day 7, a Monday; `now` = day 0), the availability endpoint
still returns all twenty slots of the fixed window: the exception table is
never consulted, so the claimed empty answer is refuted at this input. -/
theorem excepcion_no_suprime_contraejemplo :
    estadoConExcepcion.diasNoLaborales = [⟨1, 1, 7⟩] ∧
      obtenerDisponibilidadDoctor estadoConExcepcion 1 7 0 =
        .ok [633600, 635400, 637200, 639000, 640800, 642600, 644400, 646200,
             648000, 649800, 651600, 653400, 655200, 657000, 658800, 660600,
             662400, 664200, 666000, 667800] := by
  constructor
  · rfl
  · simp only [obtenerDisponibilidadDoctor, generarHorariosDelDia_eq]
    decide

/-- C3 amended.  `obtener_disponibilidad_doctor` reads only the doctor table
and the appointment table: two states that agree on those agree on the
answer, whatever their `dias_no_laborales` rows — a ScheduleException never
changes the listed slots. -/
theorem disponibilidad_ignora_dias_no_laborales (s1 s2 : DBState)
    (did fecha now : Nat)
    (hdoc : s1.doctores = s2.doctores) (hcitas : s1.citas = s2.citas) :
    obtenerDisponibilidadDoctor s1 did fecha now =
      obtenerDisponibilidadDoctor s2 did fecha now := by
  simp only [obtenerDisponibilidadDoctor, hdoc, hcitas]

/-- Witness for the C3 amended theorem: removing the exception row does not
change the availability answer. -/
theorem disponibilidad_ignora_dias_no_laborales_witness :
    obtenerDisponibilidadDoctor estadoConExcepcion 1 7 0 =
      obtenerDisponibilidadDoctor estadoInicial 1 7 0 :=
  disponibilidad_ignora_dias_no_laborales estadoConExcepcion estadoInicial
    1 7 0 rfl rfl

def horarioLunesManana : HorarioDoctor := ⟨1, 1, 0, 32400, 43200, true⟩

/-- State for C4 (Scenario A): the doctor's only weekly rule is Monday
09:00-12:00, no exceptions, no bookings. -/
def estadoEscenarioA : DBState :=
  ⟨[pacienteInicial], [doctorInicial], [horarioLunesManana], [], [], 1⟩

/-- C4 counterexample.  With the Scenario A inputs (Monday day 0, `now` =
that Monday 08:00 = 28800), the endpoint does not return the claimed five
slots 09:30-11:30 (34200..41400): the doctor's 09:00-12:00 rule is ignored. -/
theorem escenarioA_contraejemplo :
    ¬(obtenerDisponibilidadDoctor estadoEscenarioA 1 0 28800 =
      .ok [34200, 36000, 37800, 39600, 41400]) := by
  simp only [obtenerDisponibilidadDoctor, generarHorariosDelDia_eq]
  decide

/-- C4 amended.  On those inputs the endpoint walks the fixed 08:00-18:00
window of the module constants, keeps only slots strictly after `now` + 1
hour (09:00), and returns the seventeen slots 09:30, 10:00, ..., 17:30 —
the weekly availability rule plays no part. -/
theorem escenarioA_ventana_fija :
    obtenerDisponibilidadDoctor estadoEscenarioA 1 0 28800 =
      .ok [34200, 36000, 37800, 39600, 41400, 43200, 45000, 46800, 48600,
           50400, 52200, 54000, 55800, 57600, 59400, 61200, 63000] := by
  simp only [obtenerDisponibilidadDoctor, generarHorariosDelDia_eq]
  decide

def citaCancelada : Cita :=
  ⟨1, 1, 1, 640800, 30, "Consulta general de control", none, none, none,
   none, none, none, false, .canceladaPaciente, 500,
   some "Surgio un compromiso laboral urgente", some 20, some 100, 0, 100⟩

/-- State for C5: the appointment is already cancelled (state
`cancelada_paciente`, the only cancelled state the seven-member enum has). -/
def estadoConCanceladaPrevia : DBState :=
  ⟨[pacienteInicial], [doctorInicial], [horarioInicial], [],
   [citaCancelada], 2⟩

/-- C5.  A cancellation request by the owning patient on an
already-cancelled appointment does not produce the claimed InvalidState
rejection: line 712 evaluates the nonexistent `EstadoCitaEnum.CANCELADA` and
the request dies in an `AttributeError` (HTTP 500).  Moreover no cancellation
request ever succeeds, on any state and any input. -/
theorem cancelar_cancelada_error_interno :
    cancelarCita estadoConCanceladaPrevia 604800 ⟨20, .paciente⟩ 1
        "Motivo de cancelacion valido" =
      .error .atributoCanceladaInexistente ∧
    ∀ (s : DBState) (now : Nat) (cu : UsuarioActual) (citaId : Nat)
      (motivo : String),
        (cancelarCita s now cu citaId motivo).isOk = false :=
  ⟨by decide, fun s now cu citaId motivo => by
    cases h : cancelarCita s now cu citaId motivo with
    | ok r => exact absurd h (cancelarCita_siempre_error s now cu citaId
        motivo r)
    | error e => rfl⟩

/-- C6.  A completion request by the owning doctor on an appointment in the
active state CONFIRMADA — a transition the claim says is permitted — dies in
the `AttributeError` of line 754 instead of succeeding, and no completion
request ever succeeds on any input (so the outcome fields are never
written). -/
theorem completar_pendiente_error_interno :
    completarCita estadoConCita 604800 ⟨10, .doctor⟩ 1
        ⟨"Notas completas de la consulta", "Diagnostico general claro",
         none, none⟩ =
      .error .atributoCanceladaInexistente ∧
    ∀ (s : DBState) (now : Nat) (cu : UsuarioActual) (citaId : Nat)
      (datos : CitaCompletarConsulta),
        (completarCita s now cu citaId datos).isOk = false :=
  ⟨by decide, fun s now cu citaId datos => by
    cases h : completarCita s now cu citaId datos with
    | ok r => exact absurd h (completarCita_siempre_error s now cu citaId
        datos r)
    | error e => rfl⟩

/-- C7.  Any booking request whose start is not strictly later than `now`
plus the 24-hour minimum lead time of `CitaCreate.validar_antelacion_minima`
is rejected and persists nothing; when the start is at least in the future,
the rejection is specifically the minimum-lead-time error. -/
theorem antelacion_minima_rechaza (s : DBState) (now : Nat)
    (cu : UsuarioActual) (req : CitaCreate)
    (hlead : req.fechaHora ≤ now + 24 * 3600) :
    (∃ e, crearCita s now cu req = .error e) ∧
      step s (.crear now cu req) = s ∧
      (now < req.fechaHora →
        crearCita s now cu req = .error .antelacionMinima) := by
  by_cases hpast : req.fechaHora ≤ now
  · have hv : validarCitaCreate now req = .error .fechaNoFutura := by
      simp only [validarCitaCreate, if_pos hpast]
    have hc : crearCita s now cu req = .error .fechaNoFutura := by
      simp only [crearCita, hv]
    exact ⟨⟨_, hc⟩, by simp [step, hc], fun hlt => absurd hpast (by omega)⟩
  · have hv : validarCitaCreate now req = .error .antelacionMinima := by
      simp only [validarCitaCreate, if_neg hpast, if_pos hlead]
    have hc : crearCita s now cu req = .error .antelacionMinima := by
      simp only [crearCita, hv]
    exact ⟨⟨_, hc⟩, by simp [step, hc], fun _ => hc⟩

def solicitudPronta : CitaCreate :=
  ⟨1, 1300, "Consulta general de cabecera", none, none, false⟩

/-- Witness for C7: a request for `now` + 5 minutes (now = 1000, start =
1300) is rejected with the minimum-lead-time error. -/
theorem antelacion_minima_rechaza_witness :
    solicitudPronta.fechaHora ≤ 1000 + 24 * 3600 ∧
      crearCita estadoInicial 1000 ⟨20, .paciente⟩ solicitudPronta =
        .error .antelacionMinima :=
  ⟨by decide,
   (antelacion_minima_rechaza estadoInicial 1000 ⟨20, .paciente⟩
      solicitudPronta (by decide)).2.2 (by decide)⟩

/-- C8.  In `confirmar_cita` of the superseded revision (the only
implementation of confirmAppointment), an appointment found in state
PENDIENTE is confirmed, and an appointment found in any other state is
rejected with the specific pending-only error, leaving the table unchanged —
never a silent no-op.  (In the mounted revision the state-change endpoint
`cambiar_estado_cita` always fails before any transition, see
`cambiarEstadoCita_siempre_error`.) -/
theorem confirmar_solo_pendientes (citas : List CitaOld) (citaId now : Nat)
    (c : CitaOld) (hfind : citas.find? (fun x => x.id == citaId) = some c) :
    (c.estado = .pendiente →
      confirmarCita citas citaId now =
        .ok (citas.map (fun x =>
              if x.id == citaId then
                { c with estado := .confirmada, fechaActualizacion := now }
              else x),
             { c with estado := .confirmada, fechaActualizacion := now })) ∧
    (c.estado ≠ .pendiente →
      confirmarCita citas citaId now = .error .soloCitasPendientes) := by
  constructor
  · intro hp
    simp only [confirmarCita, hfind]
    simp [hp]
  · intro hp
    simp only [confirmarCita, hfind]
    simp [hp]

def citaVieja : CitaOld :=
  ⟨1, 1, 1, 640800, "Consulta general de control", none, none, none,
   .pendiente, 0, 0⟩

def citaViejaConfirmada : CitaOld :=
  ⟨1, 1, 1, 640800, "Consulta general de control", none, none, none,
   .confirmada, 0, 777⟩

/-- Witness for C8: confirming a concrete pending appointment yields the
confirmed row. -/
theorem confirmar_solo_pendientes_witness :
    confirmarCita [citaVieja] 1 777 =
      .ok ([citaViejaConfirmada], citaViejaConfirmada) := by
  rw [(confirmar_solo_pendientes [citaVieja] 1 777 citaVieja
    (by decide)).1 rfl]
  decide

/-- C9.  `generar_horarios_del_dia` is deterministic — equal inputs give
equal outputs, as the embedding is a pure function of `fecha` and the module
constants — and each output is a finite, strictly increasing list of start
times (twenty slots). -/
theorem generacion_horarios_determinista (f1 f2 : Nat) (h : f1 = f2) :
    generarHorariosDelDia f1 = generarHorariosDelDia f2 ∧
      List.Pairwise (· < ·) (generarHorariosDelDia f1) ∧
      (generarHorariosDelDia f1).length = 20 := by
  subst h
  refine ⟨rfl, ?_, ?_⟩
  · rw [generarHorariosDelDia_eq]
    simp [List.pairwise_cons]
  · rw [generarHorariosDelDia_eq]
    rfl

/-- Witness for C9 at `fecha` = 0. -/
theorem generacion_horarios_determinista_witness :
    generarHorariosDelDia 0 = generarHorariosDelDia 0 ∧
      List.Pairwise (· < ·) (generarHorariosDelDia 0) ∧
      (generarHorariosDelDia 0).length = 20 :=
  generacion_horarios_determinista 0 0 rfl

/-- C10.  Every appointment persisted by `crear_cita` carries the duration
configured on the doctor row (`duracion_cita_minutos`, a non-nullable column
whose creation schema enforces 15..120, hence the positivity hypothesis; the
endpoint's `or 30` fallback only fires on the falsy value 0).  The request
schema `CitaCreate` has no duration field, so the stored duration depends on
the doctor alone, never on the caller. -/
theorem duracion_cita_del_doctor (s : DBState) (now : Nat)
    (cu : UsuarioActual) (req : CitaCreate) (d : Doctor) (s2 : DBState)
    (c : Cita)
    (hd : s.doctores.find? (fun x => x.id == req.doctorId) = some d)
    (hpos : 0 < d.duracionCitaMinutos)
    (hok : crearCita s now cu req = .ok (s2, c)) :
    c.duracionMinutos = d.duracionCitaMinutos := by
  simp only [crearCita] at hok
  split at hok
  · simp at hok
  · split at hok
    · simp at hok
    · split at hok
      · simp at hok
      · split at hok
        · simp at hok
        next d2 hd2 =>
          rw [hd] at hd2
          injection hd2 with hd3
          subst hd3
          split at hok
          · simp at hok
          · rw [Except.ok.injEq, Prod.mk.injEq] at hok
            obtain ⟨-, hc⟩ := hok
            rw [← hc]
            show (if d.duracionCitaMinutos == 0 then 30
              else d.duracionCitaMinutos) = d.duracionCitaMinutos
            rw [if_neg (by simp; omega)]

def citaCreadaPrueba : Cita :=
  ⟨1, 1, 1, 640800, 45, "Consulta general de cabecera", none, none, none,
   none, none, none, false, .pendiente, 500, none, none, none, 0, 0⟩

def estadoTrasCrear : DBState :=
  ⟨[pacienteInicial], [doctorInicial], [horarioInicial], [],
   [citaCreadaPrueba], 2⟩

/-- Witness for C10: the doctor is configured with 45-minute appointments and
the booked appointment stores exactly 45. -/
theorem duracion_cita_del_doctor_witness :
    0 < doctorInicial.duracionCitaMinutos ∧
      citaCreadaPrueba.duracionMinutos = doctorInicial.duracionCitaMinutos :=
  ⟨by decide,
   duracion_cita_del_doctor estadoInicial 0 ⟨20, .paciente⟩
     ⟨1, 640800, "Consulta general de cabecera", none, none, false⟩
     doctorInicial estadoTrasCrear citaCreadaPrueba
     (by decide) (by decide) (by decide)⟩

end Reclamos

end MediLink
